import Mathlib

/-!
Shallow embedding of the event-sample extractor of
`src/Pitching/WakeForestResearch/DiagnosisFiles/summarize_pitching_db.py`
(the HittingMapping repository).

Modelling conventions:
- Python floats are modelled as exact rationals `ℚ`; a value that is
  `NaN`/missing (`pd.isna`) is modelled as `none : Option ℚ`.
- A pandas row's `value_1 .. value_k` columns are modelled as a
  `List (Option ℚ)`: position `i` (0-based) is column `value_(i+1)`;
  a column that is absent from `row.index` is a position beyond the
  list's length, a column that is present but NaN is `none`.
- `frames` is an integer (`ℤ`), already converted by the driver;
  a missing `frames` is `none : Option ℤ`.
- Python operations that can raise (`/` with a zero divisor, `row[col]`
  on a missing key, `max([])`, `list.index` on an absent element,
  `values[i]` out of range, `int(round(nan))`, `range(1, nan + 1)`) are
  modelled by `Except PyErr` variants of the functions; the plain
  variants are total.
- A NULL `frames` cell arrives as NaN, and the driver's `pd.notna` test
  skips the `int` conversion for it, so the value that reaches
  `time_to_frame` and `get_max_value` is either an unconverted NaN
  float or an integer.  The `PyFrames` type and the `_frames` variants
  model this domain, following Python NaN semantics (`nan <= 1` and
  `nan < 1` are False, NaN is truthy) into the two raising calls; the
  plain `Option ℤ` frames elsewhere covers the converted-integer and
  failed-conversion (`None`) cases only.
-/

/-- Error kinds a Python-level primitive can raise in the embedded code. -/
inductive PyErr : Type where
  | zeroDivision : PyErr
  | keyError : PyErr
  | valueError : PyErr
  | indexError : PyErr
  | typeError : PyErr
deriving DecidableEq, Repr

/-- Python 3 `round` on an exact value: round half to even, as used in
`int(round(frame_float))` in `time_to_frame`. -/
def roundHalfEven (q : ℚ) : ℤ :=
  if q - ⌊q⌋ < (1 : ℚ) / 2 then ⌊q⌋
  else if (1 : ℚ) / 2 < q - ⌊q⌋ then ⌊q⌋ + 1
  else if ⌊q⌋ % 2 = 0 then ⌊q⌋ else ⌊q⌋ + 1

/-- `time_to_frame(event_time, time_start, time_end, frames)` from
`summarize_pitching_db.py` lines 23-48.  Returns `none` when the Python
function returns `None`. -/
def time_to_frame (event_time time_start time_end : Option ℚ) (frames : ℤ) :
    Option ℤ :=
  match event_time, time_start, time_end with
  | some t, some ts, some te =>
    if frames ≤ 1 then none
    else if t < ts then some 1
    else if te < t then some frames
    else if te = ts then some 1
    else
      some (max 1 (min
        (roundHalfEven (1 + (t - ts) / (te - ts) * ((frames : ℚ) - 1)))
        frames))
  | _, _, _ => none

/-- `time_to_frame` with the division modelled as a fallible Python
operation: reaching `/` with `time_end - time_start = 0` yields
`ZeroDivisionError`.  Mirrors the source line by line over an integer
frame count; the unconverted-NaN frame count, whose interpolation
branch raises, is modelled by `time_to_frame_frames`. -/
def time_to_frame_checked (event_time time_start time_end : Option ℚ)
    (frames : ℤ) : Except PyErr (Option ℤ) :=
  match event_time, time_start, time_end with
  | some t, some ts, some te =>
    if frames ≤ 1 then .ok none
    else if t < ts then .ok (some 1)
    else if te < t then .ok (some frames)
    else if te = ts then .ok (some 1)
    else if te - ts = 0 then .error .zeroDivision
    else
      .ok (some (max 1 (min
        (roundHalfEven (1 + (t - ts) / (te - ts) * ((frames : ℚ) - 1)))
        frames)))
  | _, _, _ => .ok none

/-- `get_value_at_frame(row, frame_num)` from `summarize_pitching_db.py`
lines 50-59.  `row.get? i` models the guarded column access
`if value_col in row.index: row[value_col]`; a present-but-NaN value is
an inner `none`. -/
def get_value_at_frame (row : List (Option ℚ)) (frame_num : Option ℤ) :
    Option ℚ :=
  match frame_num with
  | none => none
  | some f =>
    if f < 1 then none
    else
      match row.get? (f - 1).toNat with
      | some v => v
      | none => none

/-- `get_value_at_frame` with the column access modelled as a fallible
dictionary lookup guarded by the code's `in row.index` membership test. -/
def get_value_at_frame_checked (row : List (Option ℚ)) (frame_num : Option ℤ) :
    Except PyErr (Option ℚ) :=
  match frame_num with
  | none => .ok none
  | some f =>
    if f < 1 then .ok none
    else if h : (f - 1).toNat < row.length then
      let v := row.get ⟨(f - 1).toNat, h⟩
      .ok v
    else .ok none

/-- The `values` list built by the loop in `get_max_value` lines 66-72:
for `i` in `1..frames`, append `row[value_i]` when the column exists and
the value is not NaN, in ascending frame order. -/
def collectValues (row : List (Option ℚ)) (frames : ℤ) : List ℚ :=
  (List.range frames.toNat).filterMap (fun i => (row.get? i).join)

/-- Python `max` on a list of rationals (`max(abs_values)`): the fold of
`max` over the list; `0` stands for the `ValueError` case of an empty
list, which the guarded call sites never reach. -/
def pyMax (l : List ℚ) : ℚ :=
  match l with
  | [] => 0
  | v :: rest => rest.foldl max v

/-- Python `list.index` (`abs_values.index(...)`): index of the first
occurrence; absent elements, on which Python raises `ValueError`, give
the length (never reached at the guarded call site). -/
def pyIndex (l : List ℚ) (x : ℚ) : Nat :=
  match l with
  | [] => 0
  | v :: rest => if v = x then 0 else pyIndex rest x + 1

/-- `get_max_value(row, frames)` from `summarize_pitching_db.py` lines
61-80: collect present samples, then return
`values[abs_values.index(max(abs_values))]`. -/
def get_max_value (row : List (Option ℚ)) (frames : Option ℤ) : Option ℚ :=
  match frames with
  | none => none
  | some fr =>
    if fr < 1 then none
    else
      if collectValues row fr = [] then none
      else
        match (collectValues row fr).get?
            (pyIndex ((collectValues row fr).map (fun v => |v|))
              (pyMax ((collectValues row fr).map (fun v => |v|)))) with
        | some v => some v
        | none => none

/-- `get_max_value` with `max`, `list.index` and the final list indexing
modelled as fallible Python operations, over an integer or `None` frame
count; the unconverted-NaN frame count, which raises at
`range(1, frames + 1)`, is modelled by `get_max_value_frames`. -/
def get_max_value_checked (row : List (Option ℚ)) (frames : Option ℤ) :
    Except PyErr (Option ℚ) :=
  match frames with
  | none => .ok none
  | some fr =>
    if fr < 1 then .ok none
    else
      if collectValues row fr = [] then .ok none
      else
        if (collectValues row fr).map (fun v => |v|) = [] then .error .valueError
        else
          if pyMax ((collectValues row fr).map (fun v => |v|)) ∈
              (collectValues row fr).map (fun v => |v|) then
            match (collectValues row fr).get?
                (pyIndex ((collectValues row fr).map (fun v => |v|))
                  (pyMax ((collectValues row fr).map (fun v => |v|)))) with
            | some v => .ok (some v)
            | none => .error .indexError
          else .error .valueError

/-- One time-series row as the driver loop of `summarize_database`
(lines 181-219) sees it: the `value_*` columns plus the `time_start`,
`time_end` and `frames` metadata. -/
structure RowData : Type where
  samples : List (Option ℚ)
  time_start : Option ℚ
  time_end : Option ℚ
  frames : Option ℤ
deriving DecidableEq, Repr

/-- The per-event body of the driver loop, lines 201-212:
`if pd.notna(event_time) and pd.notna(time_start) and pd.notna(time_end)
and frames:` then `get_value_at_frame(row, time_to_frame(...))`, else
`None`.  `frames` truthiness over this `Option ℤ` domain is `frames`
present and nonzero; the unconverted-NaN frame count (also truthy in
Python, and able to raise downstream) is modelled by
`extractEventValueFrames`. -/
def extractEventValue (r : RowData) (event_time : Option ℚ) : Option ℚ :=
  match event_time, r.time_start, r.time_end, r.frames with
  | some t, some ts, some te, some fr =>
    if fr = 0 then none
    else get_value_at_frame r.samples (time_to_frame (some t) (some ts) (some te) fr)
  | _, _, _, _ => none

/-- The driver's event loop, which appends each `@event` field to the
accumulating output row `new_row` in order. -/
def extractLoop (r : RowData) (events : List (String × Option ℚ))
    (acc : List (String × Option ℚ)) : List (String × Option ℚ) :=
  match events with
  | [] => acc
  | e :: rest => extractLoop r rest (acc ++ [(e.1, extractEventValue r e.2)])

/-- `extract_event_samples`: the whole per-row extraction of
`summarize_database` lines 200-219 — the `@event` fields in input order
plus the `@max` field (`get_max_value` guarded by `if frames:`).  The
`Option ℤ` frames domain covers the converted-integer and
failed-conversion cases; the unconverted-NaN `@max` path, which raises,
is `get_max_value_frames`. -/
def extract_event_samples (r : RowData) (events : List (String × Option ℚ)) :
    List (String × Option ℚ) × Option ℚ :=
  (extractLoop r events [],
   match r.frames with
   | some fr => if fr = 0 then none else get_max_value r.samples (some fr)
   | none => none)

/-- A `frames` value as the driver conversion block (lines 193-198)
leaves it when `frames` is not `None`: `pd.notna` lets a NaN frames
cell through unconverted, so the value reaching `time_to_frame` and
`get_max_value` is either a NaN float or an integer. -/
inductive PyFrames : Type where
  | nan : PyFrames
  | int (n : ℤ) : PyFrames
deriving DecidableEq, Repr

/-- Python truthiness of a driver-level frames value at `and frames:` /
`if frames:`: `None` and `0` are falsy, NaN and every nonzero integer
are truthy. -/
def framesTruthy : Option PyFrames → Bool
  | none => false
  | some .nan => true
  | some (.int n) => n != 0

/-- `time_to_frame` over the full driver-level frames domain.  An
integer frame count behaves exactly as `time_to_frame_checked`.  A NaN
frame count passes the line-28 guard (`nan <= 1` is False in Python);
the clamp-low and degenerate branches return 1 without touching
`frames`, the clamp-high branch returns the NaN itself, and the
interpolation branch computes `frames - 1 = nan` and raises
`ValueError` at `int(round(nan))` (line 43). -/
def time_to_frame_frames (event_time time_start time_end : Option ℚ)
    (frames : PyFrames) : Except PyErr (Option PyFrames) :=
  match frames with
  | .int n =>
    (time_to_frame_checked event_time time_start time_end n).map
      (fun r => r.map PyFrames.int)
  | .nan =>
    match event_time, time_start, time_end with
    | some t, some ts, some te =>
      if t < ts then .ok (some (.int 1))
      else if te < t then .ok (some .nan)
      else if te = ts then .ok (some (.int 1))
      else .error .valueError
    | _, _, _ => .ok none

/-- `get_value_at_frame` over the driver-level frame-number domain: a
NaN frame number passes `frame_num < 1` (False for NaN), but the column
name `value_nan` is not in the row index, so the guarded lookup returns
`None` without raising; an integer behaves as
`get_value_at_frame_checked`. -/
def get_value_at_frame_frames (row : List (Option ℚ))
    (frame_num : Option PyFrames) : Except PyErr (Option ℚ) :=
  match frame_num with
  | none => .ok none
  | some .nan => .ok none
  | some (.int f) => get_value_at_frame_checked row (some f)

/-- `get_max_value` over the full driver-level frames domain: `None`
hits the `frames is None` guard; a NaN frame count passes `frames < 1`
(False for NaN) and raises `TypeError` at `range(1, frames + 1)`
(line 67); an integer behaves as `get_max_value_checked`. -/
def get_max_value_frames (row : List (Option ℚ)) (frames : Option PyFrames) :
    Except PyErr (Option ℚ) :=
  match frames with
  | none => .ok none
  | some .nan => .error .typeError
  | some (.int n) => get_max_value_checked row (some n)

/-- The per-event driver body (lines 201-212) over the full
driver-level frames domain with fallible semantics: NaN is truthy at
`and frames:` and flows into `time_to_frame`; an exception there
propagates. -/
def extractEventValueFrames (samples : List (Option ℚ))
    (time_start time_end : Option ℚ) (frames : Option PyFrames)
    (event_time : Option ℚ) : Except PyErr (Option ℚ) :=
  match event_time, time_start, time_end, frames with
  | some t, some ts, some te, some fr =>
    if framesTruthy (some fr) then
      match time_to_frame_frames (some t) (some ts) (some te) fr with
      | .ok fn => get_value_at_frame_frames samples fn
      | .error err => .error err
    else .ok none
  | _, _, _, _ => .ok none

/-! Helper lemmas about the embedded Python primitives. -/

theorem foldl_max_init_le (l : List ℚ) (b : ℚ) : b ≤ l.foldl max b := by
  induction l generalizing b with
  | nil => exact le_refl b
  | cons w l ih => exact le_trans (le_max_left b w) (ih (max b w))

theorem foldl_max_le_of_mem (l : List ℚ) (b x : ℚ) (hx : x ∈ l) :
    x ≤ l.foldl max b := by
  induction l generalizing b with
  | nil => exact absurd hx (List.not_mem_nil x)
  | cons w l ih =>
    rcases List.mem_cons.mp hx with h | h
    · subst h
      exact le_trans (le_max_right b x) (foldl_max_init_le l (max b x))
    · exact ih (max b w) h

theorem foldl_max_mem (l : List ℚ) (b : ℚ) : l.foldl max b ∈ b :: l := by
  induction l generalizing b with
  | nil => exact List.mem_singleton.mpr rfl
  | cons w l ih =>
    simp only [List.foldl_cons]
    rcases List.mem_cons.mp (ih (max b w)) with h1 | h1
    · rw [h1]
      rcases max_choice b w with hm | hm <;> rw [hm]
      · exact List.mem_cons_self b _
      · exact List.mem_cons.mpr (Or.inr (List.mem_cons_self w _))
    · exact List.mem_cons.mpr (Or.inr (List.mem_cons.mpr (Or.inr h1)))

theorem le_pyMax (l : List ℚ) (x : ℚ) (hx : x ∈ l) : x ≤ pyMax l := by
  cases l with
  | nil => exact absurd hx (List.not_mem_nil x)
  | cons v rest =>
    rcases List.mem_cons.mp hx with h | h
    · subst h
      exact foldl_max_init_le rest x
    · exact foldl_max_le_of_mem rest v x h

theorem pyMax_mem (l : List ℚ) (h : l ≠ []) : pyMax l ∈ l := by
  cases l with
  | nil => exact absurd rfl h
  | cons v rest => exact foldl_max_mem rest v

theorem pyIndex_lt_length (l : List ℚ) (x : ℚ) (hx : x ∈ l) :
    pyIndex l x < l.length := by
  induction l with
  | nil => exact absurd hx (List.not_mem_nil x)
  | cons v rest ih =>
    by_cases h : v = x
    · simp [pyIndex, h]
    · rcases List.mem_cons.mp hx with h1 | h1
      · exact absurd h1.symm h
      · simpa [pyIndex, h, Nat.succ_lt_succ_iff] using ih h1

theorem get_pyIndex (l : List ℚ) (x : ℚ) (hx : x ∈ l) :
    l.get? (pyIndex l x) = some x := by
  induction l with
  | nil => exact absurd hx (List.not_mem_nil x)
  | cons v rest ih =>
    by_cases h : v = x
    · simp [pyIndex, h]
    · rcases List.mem_cons.mp hx with h1 | h1
      · exact absurd h1.symm h
      · simpa [pyIndex, h] using ih h1

theorem get_lt_pyIndex (l : List ℚ) (x : ℚ) (j : Nat) (hj : j < pyIndex l x) :
    l.get? j ≠ some x := by
  induction l generalizing j with
  | nil => simp [List.get?]
  | cons v rest ih =>
    by_cases h : v = x
    · simp [pyIndex, h] at hj
    · cases j with
      | zero =>
        intro hc
        exact h (Option.some.inj hc)
      | succ j =>
        have hj2 : j < pyIndex rest x := by
          simpa [pyIndex, h, Nat.succ_lt_succ_iff] using hj
        simpa using ih j hj2

theorem argmax_get (l : List ℚ) (hl : l ≠ []) :
    ∃ v, l.get? (pyIndex (l.map (fun x => |x|)) (pyMax (l.map (fun x => |x|))))
        = some v ∧ |v| = pyMax (l.map (fun x => |x|)) := by
  have hane : l.map (fun x => |x|) ≠ [] := by
    simpa [List.map_eq_nil_iff] using hl
  have hmem := pyMax_mem (l.map (fun x => |x|)) hane
  have hget := get_pyIndex (l.map (fun x => |x|)) _ hmem
  rw [List.get?_map] at hget
  cases h : l.get? (pyIndex (l.map (fun x => |x|)) (pyMax (l.map (fun x => |x|)))) with
  | none =>
    rw [h] at hget
    exact absurd hget (by simp)
  | some v =>
    rw [h] at hget
    exact ⟨v, rfl, Option.some.inj hget⟩

theorem roundHalfEven_intCast (n : ℤ) : roundHalfEven (n : ℚ) = n := by
  unfold roundHalfEven
  rw [Int.floor_intCast, sub_self]
  norm_num

/-! Claim theorems. -/

/-- C7: `map_time_to_frame` returns an undefined result (and not a frame
number) whenever any of `event_time`, `time_start`, `time_end` is missing,
or `frame_count ≤ 1`. -/
theorem C7_undefined_inputs (event_time time_start time_end : Option ℚ)
    (frames : ℤ)
    (h : event_time = none ∨ time_start = none ∨ time_end = none ∨ frames ≤ 1) :
    time_to_frame event_time time_start time_end frames = none := by
  rcases event_time with _ | t
  · rfl
  rcases time_start with _ | ts
  · rfl
  rcases time_end with _ | te
  · rfl
  have hf : frames ≤ 1 := by
    rcases h with h | h | h | h
    · exact absurd h (Option.some_ne_none t)
    · exact absurd h (Option.some_ne_none ts)
    · exact absurd h (Option.some_ne_none te)
    · exact h
  simp [time_to_frame, hf]

/-- C7 witness: `frame_count = 1` on otherwise well-formed inputs yields
`none`. -/
theorem C7_witness : time_to_frame (some 1) (some 0) (some 2) 1 = none :=
  C7_undefined_inputs (some 1) (some 0) (some 2) 1
    (Or.inr (Or.inr (Or.inr (by norm_num))))

/-- C4: whenever `map_time_to_frame` returns a defined result, that result
lies in the closed range `[1, frame_count]`. -/
theorem C4_result_in_range (event_time time_start time_end : Option ℚ)
    (frames r : ℤ)
    (h : time_to_frame event_time time_start time_end frames = some r) :
    1 ≤ r ∧ r ≤ frames := by
  rcases event_time with _ | t
  · exact absurd h (by simp [time_to_frame])
  rcases time_start with _ | ts
  · exact absurd h (by simp [time_to_frame])
  rcases time_end with _ | te
  · exact absurd h (by simp [time_to_frame])
  simp only [time_to_frame] at h
  split_ifs at h with h1 h2 h3 h4
  · have := Option.some.inj h
    omega
  · have := Option.some.inj h
    omega
  · have := Option.some.inj h
    omega
  · have := Option.some.inj h
    omega

/-- C4 witness: the frame for a concrete event time below the window is
within `[1, 3]`. -/
theorem C4_witness : 1 ≤ (1 : ℤ) ∧ (1 : ℤ) ≤ 3 :=
  C4_result_in_range (some (-1)) (some 0) (some 2) 3 1 (by decide)

/-- C2 counterexample: on the degenerate window `[5, 5]` with 3 frames,
an event time of 6 (greater than `time_end`) maps to frame 3, not
frame 1 — the clamp-high branch precedes the degenerate-window branch. -/
theorem C2_counterexample :
    time_to_frame (some 6) (some 5) (some 5) 3 = some 3 ∧
    time_to_frame (some 6) (some 5) (some 5) 3 ≠ some 1 := by
  constructor
  · decide
  · decide

/-- C2 amended: on a degenerate window (`time_end = time_start`) with no
missing input and `frame_count > 1`, `map_time_to_frame` returns frame 1
for every event time at or below the window point; for an event time
above it, the clamp-high branch fires first and returns `frame_count`. -/
theorem C2_degenerate_window (t c : ℚ) (N : ℤ) (hN : 1 < N) :
    (t ≤ c → time_to_frame (some t) (some c) (some c) N = some 1) ∧
    (c < t → time_to_frame (some t) (some c) (some c) N = some N) := by
  constructor
  · intro ht
    simp only [time_to_frame]
    rw [if_neg (by omega)]
    by_cases h : t < c
    · rw [if_pos h]
    · rw [if_neg h, if_neg (not_lt.mpr ht)]
      simp
  · intro ht
    simp only [time_to_frame]
    rw [if_neg (by omega), if_neg (not_lt.mpr (le_of_lt ht)), if_pos ht]

/-- C2 witness: `map_time_to_frame(4, 5.0, 5.0, 3)` returns 1. -/
theorem C2_witness : time_to_frame (some 4) (some 5) (some 5) 3 = some 1 :=
  (C2_degenerate_window 4 5 3 (by norm_num)).1 (by norm_num)

/-- C5: on a non-degenerate window with no missing inputs and
`frame_count > 1`, an event time below `time_start` maps to frame 1 and
an event time above `time_end` maps to `frame_count`; consequently
`extract_event_samples` on the row `[10, 20, 30]` with
`time_start = 0`, `time_end = 1`, `frame_count = 3` and an event time
below `time_start` yields the value 10 for that event. -/
theorem C5_clamps (t ts te : ℚ) (N : ℤ) (hwin : ts < te) (hN : 1 < N) :
    (t < ts → time_to_frame (some t) (some ts) (some te) N = some 1) ∧
    (te < t → time_to_frame (some t) (some ts) (some te) N = some N) ∧
    extractEventValue ⟨[some 10, some 20, some 30], some 0, some 1, some 3⟩
      (some (-1)) = some 10 := by
  refine ⟨?_, ?_, by decide⟩
  · intro hlt
    simp only [time_to_frame]
    rw [if_neg (by omega), if_pos hlt]
  · intro hgt
    simp only [time_to_frame]
    rw [if_neg (by omega), if_neg (not_lt.mpr (le_of_lt (lt_trans hwin hgt))),
      if_pos hgt]

/-- C5 witness: clamp-low on the concrete window `[0, 1]` with 3 frames. -/
theorem C5_witness : time_to_frame (some (-1)) (some 0) (some 1) 3 = some 1 :=
  (C5_clamps (-1) 0 1 3 (by norm_num) (by norm_num)).1 (by norm_num)

/-- C6 counterexample: with `time_start = time_end = 5` and `N = 2`,
`map_time_to_frame(time_end, time_start, time_end, N)` returns 1, not
`N` — the claim fails on degenerate windows. -/
theorem C6_counterexample :
    time_to_frame (some 5) (some 5) (some 5) 2 = some 1 ∧
    time_to_frame (some 5) (some 5) (some 5) 2 ≠ some 2 := by
  constructor
  · decide
  · decide

/-- C6 amended: for every proper window (`time_start < time_end`) and
frame count `N > 1` with no missing inputs, `map_time_to_frame` maps
`time_start` to frame 1 and `time_end` to frame `N`. -/
theorem C6_endpoints (ts te : ℚ) (N : ℤ) (hwin : ts < te) (hN : 1 < N) :
    time_to_frame (some ts) (some ts) (some te) N = some 1 ∧
    time_to_frame (some te) (some ts) (some te) N = some N := by
  have hne : te - ts ≠ 0 := sub_ne_zero.mpr (ne_of_gt hwin)
  constructor
  · simp only [time_to_frame]
    rw [if_neg (by omega), if_neg (lt_irrefl ts),
      if_neg (not_lt.mpr (le_of_lt hwin)), if_neg (ne_of_gt hwin)]
    have he : (1 : ℚ) + (ts - ts) / (te - ts) * ((N : ℚ) - 1) = ((1 : ℤ) : ℚ) := by
      push_cast
      ring
    rw [he, roundHalfEven_intCast]
    have h1 : min (1 : ℤ) N = 1 := by omega
    rw [h1]
    have h2 : max (1 : ℤ) 1 = 1 := by omega
    rw [h2]
  · simp only [time_to_frame]
    rw [if_neg (by omega), if_neg (not_lt.mpr (le_of_lt hwin)),
      if_neg (lt_irrefl te), if_neg (ne_of_gt hwin)]
    have he : (1 : ℚ) + (te - ts) / (te - ts) * ((N : ℚ) - 1) = ((N : ℤ) : ℚ) := by
      rw [div_self hne]
      ring
    rw [he, roundHalfEven_intCast]
    have h1 : min N N = N := min_self N
    rw [h1]
    have h2 : max (1 : ℤ) N = N := by omega
    rw [h2]

/-- C6 witness: window `[0, 2]` with 3 frames maps its endpoints to
frames 1 and 3. -/
theorem C6_witness :
    time_to_frame (some 0) (some 0) (some 2) 3 = some 1 ∧
    time_to_frame (some 2) (some 0) (some 2) 3 = some 3 :=
  C6_endpoints 0 2 3 (by norm_num) (by norm_num)

/-- C10: on an inverted window (`time_end < time_start`) with no missing
values and `frame_count > 1`, `map_time_to_frame` is still defined and
never reaches the division: it returns 1 when the event time is below
`time_start` and `frame_count` otherwise, and the checked semantics
raise no error. -/
theorem C10_inverted_window (t ts te : ℚ) (N : ℤ) (hinv : te < ts)
    (hN : 1 < N) :
    time_to_frame (some t) (some ts) (some te) N =
      some (if t < ts then 1 else N) ∧
    time_to_frame_checked (some t) (some ts) (some te) N =
      Except.ok (some (if t < ts then 1 else N)) := by
  constructor
  · simp only [time_to_frame]
    rw [if_neg (by omega)]
    rcases lt_or_ge t ts with hlt | hge
    · simp only [if_pos hlt]
    · have hgt : te < t := lt_of_lt_of_le hinv hge
      simp only [if_neg (not_lt.mpr hge), if_pos hgt]
  · simp only [time_to_frame_checked]
    rw [if_neg (by omega)]
    rcases lt_or_ge t ts with hlt | hge
    · simp only [if_pos hlt]
    · have hgt : te < t := lt_of_lt_of_le hinv hge
      simp only [if_neg (not_lt.mpr hge), if_pos hgt]

/-- C10 witness: the inverted window `[5, 3]` with 4 frames maps event
time 7 to frame 4 with no error. -/
theorem C10_witness :
    time_to_frame (some 7) (some 5) (some 3) 4 =
      some (if (7 : ℚ) < 5 then 1 else 4) ∧
    time_to_frame_checked (some 7) (some 5) (some 3) 4 =
      Except.ok (some (if (7 : ℚ) < 5 then 1 else 4)) :=
  C10_inverted_window 7 5 3 4 (by norm_num) (by norm_num)

/-- C3: for every row with a present sample among the declared frames and
frame count ≥ 1, `extreme_value` returns a sample of the row (original
sign preserved) of maximal absolute value, and every sample at an
earlier frame has strictly smaller absolute value (deterministic
first-occurrence tie-break); concretely, samples `[2, -9, 3]` give `-9`
and `[5, -5, 1]` give `5`. -/
theorem C3_extreme_value (row : List (Option ℚ)) (fr : ℤ) (hfr : 1 ≤ fr)
    (hne : collectValues row fr ≠ []) :
    (∃ i v, (collectValues row fr).get? i = some v ∧
      get_max_value row (some fr) = some v ∧
      (∀ j w, (collectValues row fr).get? j = some w → |w| ≤ |v|) ∧
      (∀ j w, j < i → (collectValues row fr).get? j = some w → |w| < |v|)) ∧
    get_max_value [some 2, some (-9), some 3] (some 3) = some (-9) ∧
    get_max_value [some 5, some (-5), some 1] (some 3) = some 5 := by
  refine ⟨?_, by decide, by decide⟩
  obtain ⟨v, hv, hvm⟩ := argmax_get (collectValues row fr) hne
  refine ⟨pyIndex ((collectValues row fr).map (fun x => |x|))
      (pyMax ((collectValues row fr).map (fun x => |x|))), v, hv, ?_, ?_, ?_⟩
  · simp only [get_max_value]
    rw [if_neg (not_lt.mpr hfr), if_neg hne, hv]
  · intro j w hw
    have hmem : |w| ∈ (collectValues row fr).map (fun x => |x|) :=
      List.mem_map_of_mem _ (List.get?_mem hw)
    rw [hvm]
    exact le_pyMax _ _ hmem
  · intro j w hj hw
    have hmem : |w| ∈ (collectValues row fr).map (fun x => |x|) :=
      List.mem_map_of_mem _ (List.get?_mem hw)
    have hle : |w| ≤ pyMax ((collectValues row fr).map (fun x => |x|)) :=
      le_pyMax _ _ hmem
    have hne2 := get_lt_pyIndex ((collectValues row fr).map (fun x => |x|))
      (pyMax ((collectValues row fr).map (fun x => |x|))) j hj
    have hgj : ((collectValues row fr).map (fun x => |x|)).get? j = some |w| := by
      rw [List.get?_map, hw]
      rfl
    have hwne : |w| ≠ pyMax ((collectValues row fr).map (fun x => |x|)) := by
      intro hc
      exact hne2 (by rw [hgj, hc])
    rw [hvm]
    exact lt_of_le_of_ne hle hwne

/-- C3 witness: the general property instantiated on the row
`[2, -9, 3]` with 3 declared frames. -/
theorem C3_witness :
    get_max_value [some 2, some (-9), some 3] (some 3) = some (-9) :=
  (C3_extreme_value [some 2, some (-9), some 3] 3 (by norm_num)
    (by decide)).2.1

/-- C1 counterexample: a row declaring 5 frames but supplying only 3
samples yields `None` with no error raised (`ok` results in the checked
semantics), and a zero or negative frame count with non-empty samples
likewise yields `ok None` — no data-integrity error is signaled. -/
theorem C1_counterexample :
    get_value_at_frame_checked [some 1, some 2, some 3] (some 5) =
      Except.ok none ∧
    get_max_value_checked [some 1, some 2, some 3] (some 5) =
      Except.ok (some 3) ∧
    get_max_value_checked [some 1, some 2, some 3] (some 0) =
      Except.ok none ∧
    get_max_value_checked [some 1, some 2, some 3] (some (-2)) =
      Except.ok none :=
  ⟨rfl, rfl, rfl, rfl⟩

/-- C1 amended: when the declared frame count exceeds the number of
samples supplied, the value at an out-of-range frame is undefined
(`None`) and no error is raised; a zero or negative frame count yields
an undefined extreme, also without an error. -/
theorem C1_mismatch_is_undefined (row : List (Option ℚ)) (f fr : ℤ) :
    ((row.length : ℤ) < f → 1 ≤ f →
      get_value_at_frame_checked row (some f) = Except.ok none) ∧
    (fr ≤ 0 → get_max_value_checked row (some fr) = Except.ok none) := by
  constructor
  · intro hlen hf
    simp only [get_value_at_frame_checked]
    rw [if_neg (by omega), dif_neg (by omega)]
  · intro hfr
    simp only [get_max_value_checked]
    rw [if_pos (by omega)]

/-- C1 witness: a concrete mismatched row and a negative frame count
both give `ok None`. -/
theorem C1_witness :
    get_value_at_frame_checked [some 0, some 0] (some 4) = Except.ok none ∧
    get_max_value_checked [some 0, some 0] (some (-1)) = Except.ok none :=
  ⟨(C1_mismatch_is_undefined [some 0, some 0] 4 (-1)).1 (by decide) (by decide),
   (C1_mismatch_is_undefined [some 0, some 0] 4 (-1)).2 (by decide)⟩

/-- C8 counterexample: a degenerate time window (a listed data-quality
problem) does not surface as an undefined output field — on the row
`[10, 20, 30]` with `time_start = time_end = 5` and event time 5 the
extracted event value is the defined value 10. -/
theorem C8_counterexample :
    extractEventValue ⟨[some 10, some 20, some 30], some 5, some 5, some 3⟩
      (some 5) = some 10 ∧
    some (10 : ℚ) ≠ (none : Option ℚ) := by
  refine ⟨by decide, by simp⟩

/-- C8 amended: for every input whose only problems are the listed
data-quality conditions — missing event timestamp, missing sample,
degenerate time window, frame count at most 1, the frame count itself
being an integer — the extractor operations never throw; a missing
timestamp, a missing sample and a frame count at most 1 surface as
undefined output fields, while a degenerate time window yields a
defined clamped frame (frame 1 for event times at or below the window
point), not an undefined field.  The no-throw guarantee stops at an
unconverted NaN frame count, which is truthy, passes the `<= 1` guard,
and raises `ValueError` in the interpolation branch of `time_to_frame`
and `TypeError` in `get_max_value`. -/
theorem C8_no_throw_data_quality :
    (∀ e ts te : Option ℚ, ∀ fr : ℤ,
      time_to_frame_checked e ts te fr = Except.ok (time_to_frame e ts te fr)) ∧
    (∀ row : List (Option ℚ), ∀ fn : Option ℤ,
      get_value_at_frame_checked row fn =
        Except.ok (get_value_at_frame row fn)) ∧
    (∀ row : List (Option ℚ), ∀ fr : Option ℤ,
      get_max_value_checked row fr = Except.ok (get_max_value row fr)) ∧
    (∀ e ts te : Option ℚ, ∀ n : ℤ,
      time_to_frame_frames e ts te (PyFrames.int n) =
        Except.ok ((time_to_frame e ts te n).map PyFrames.int)) ∧
    (∀ samples : List (Option ℚ), ∀ ts te e : Option ℚ, ∀ fn : Option ℤ,
      extractEventValueFrames samples ts te (fn.map PyFrames.int) e =
        Except.ok (extractEventValue ⟨samples, ts, te, fn⟩ e)) ∧
    (∀ r : RowData, extractEventValue r none = none) ∧
    (∀ row : List (Option ℚ), ∀ f : ℤ, row.get? (f - 1).toNat = some none →
      get_value_at_frame row (some f) = none) ∧
    (∀ e ts te : Option ℚ, ∀ fr : ℤ, fr ≤ 1 →
      time_to_frame e ts te fr = none) ∧
    (∀ t c : ℚ, ∀ fr : ℤ, 1 < fr → t ≤ c →
      time_to_frame (some t) (some c) (some c) fr = some 1) ∧
    (∀ t ts te : ℚ, ts ≤ t → t ≤ te → ts < te →
      time_to_frame_frames (some t) (some ts) (some te) PyFrames.nan =
        Except.error PyErr.valueError) ∧
    (∀ row : List (Option ℚ),
      get_max_value_frames row (some PyFrames.nan) =
        Except.error PyErr.typeError) := by
  have httf : ∀ e ts te : Option ℚ, ∀ fr : ℤ,
      time_to_frame_checked e ts te fr =
        Except.ok (time_to_frame e ts te fr) := by
    intro e ts te fr
    rcases e with _ | t
    · rfl
    rcases ts with _ | ts
    · rfl
    rcases te with _ | te
    · rfl
    simp only [time_to_frame, time_to_frame_checked]
    split_ifs with h1 h2 h3 h4 h5
    · rfl
    · rfl
    · rfl
    · rfl
    · exact absurd (sub_eq_zero.mp h5) h4
    · rfl
  have hgvf : ∀ (row : List (Option ℚ)) (fn : Option ℤ),
      get_value_at_frame_checked row fn =
        Except.ok (get_value_at_frame row fn) := by
    intro row fn
    rcases fn with _ | f
    · rfl
    simp only [get_value_at_frame, get_value_at_frame_checked]
    split_ifs with h1 h2
    · rfl
    · rw [List.get?_eq_get h2]
    · rw [List.get?_eq_none.mpr (le_of_not_lt h2)]
  have hgmf : ∀ (row : List (Option ℚ)) (fr : Option ℤ),
      get_max_value_checked row fr = Except.ok (get_max_value row fr) := by
    intro row fr
    rcases fr with _ | fr
    · rfl
    simp only [get_max_value, get_max_value_checked]
    split_ifs with h1 h2 h3 h4
    · rfl
    · rfl
    · exact absurd (List.map_eq_nil_iff.mp h3) h2
    · obtain ⟨v, hv, _⟩ := argmax_get (collectValues row fr) h2
      rw [hv]
    · exact absurd (pyMax_mem _ h3) h4
  have hbridge : ∀ (e ts te : Option ℚ) (n : ℤ),
      time_to_frame_frames e ts te (PyFrames.int n) =
        Except.ok ((time_to_frame e ts te n).map PyFrames.int) := by
    intro e ts te n
    simp only [time_to_frame_frames]
    rw [httf e ts te n]
    rfl
  have hgvff : ∀ (samples : List (Option ℚ)) (fn : Option ℤ),
      get_value_at_frame_frames samples (fn.map PyFrames.int) =
        Except.ok (get_value_at_frame samples fn) := by
    intro samples fn
    rcases fn with _ | f
    · rfl
    · exact hgvf samples (some f)
  refine ⟨httf, hgvf, hgmf, hbridge, ?_, ?_, ?_, ?_, ?_, ?_, ?_⟩
  · intro samples ts te e fn
    rcases e with _ | t
    · rcases ts with _ | ts <;> rcases te with _ | te <;>
        rcases fn with _ | n <;> rfl
    rcases ts with _ | ts
    · rcases te with _ | te <;> rcases fn with _ | n <;> rfl
    rcases te with _ | te
    · rcases fn with _ | n <;> rfl
    rcases fn with _ | n
    · rfl
    by_cases hn : n = 0
    · subst hn
      simp [extractEventValueFrames, extractEventValue, framesTruthy]
    · have hb := hbridge (some t) (some ts) (some te) n
      have hg := hgvff samples (time_to_frame (some t) (some ts) (some te) n)
      simp [extractEventValueFrames, extractEventValue, framesTruthy, hn,
        hb, hg]
  · intro r
    rcases r with ⟨s, ts, te, fr⟩
    rcases ts with _ | ts <;> rcases te with _ | te <;>
      rcases fr with _ | fr <;> rfl
  · intro row f hrow
    simp only [get_value_at_frame]
    by_cases h : f < 1
    · rw [if_pos h]
    · rw [if_neg h, hrow]
  · intro e ts te fr hfr
    rcases e with _ | t
    · rfl
    rcases ts with _ | ts
    · rfl
    rcases te with _ | te
    · rfl
    simp [time_to_frame, hfr]
  · intro t c fr hfr htc
    simp only [time_to_frame]
    rw [if_neg (by omega)]
    by_cases h : t < c
    · rw [if_pos h]
    · rw [if_neg h, if_neg (not_lt.mpr htc)]
      simp
  · intro t ts te hts hte hlt
    simp only [time_to_frame_frames]
    rw [if_neg (not_lt.mpr hts), if_neg (not_lt.mpr hte),
      if_neg (ne_of_gt hlt)]
  · intro row
    rfl

/-- C8 witness: the no-throw agreement, the undefined-surfacing facts,
the degenerate-window defined value and the NaN-frames raises, all at
concrete inputs. -/
theorem C8_witness :
    time_to_frame_checked (some 1) (some 0) (some 2) 3 =
      Except.ok (time_to_frame (some 1) (some 0) (some 2) 3) ∧
    time_to_frame (some 1) (some 0) (some 2) 1 = none ∧
    time_to_frame (some 4) (some 5) (some 5) 3 = some 1 ∧
    time_to_frame_frames (some 1) (some 0) (some 2) PyFrames.nan =
      Except.error PyErr.valueError ∧
    get_max_value_frames [some 1, some 2] (some PyFrames.nan) =
      Except.error PyErr.typeError :=
  ⟨C8_no_throw_data_quality.1 (some 1) (some 0) (some 2) 3,
   C8_no_throw_data_quality.2.2.2.2.2.2.2.1 (some 1) (some 0) (some 2) 1
     (by norm_num),
   C8_no_throw_data_quality.2.2.2.2.2.2.2.2.1 4 5 3 (by norm_num)
     (by norm_num),
   C8_no_throw_data_quality.2.2.2.2.2.2.2.2.2.1 1 0 2 (by norm_num)
     (by norm_num) (by norm_num),
   C8_no_throw_data_quality.2.2.2.2.2.2.2.2.2.2 [some 1, some 2]⟩

/-- C9: `extract_event_samples` is deterministic and pure — two calls on
identical inputs yield identical outputs, and the per-event output list
is exactly a map of the per-event extraction over the input events, so
the loop accumulator (the only intermediate state) influences no
field. -/
theorem C9_pure_extraction (r1 r2 : RowData)
    (es1 es2 : List (String × Option ℚ))
    (hr : r1 = r2) (he : es1 = es2) :
    extract_event_samples r1 es1 = extract_event_samples r2 es2 ∧
    (extract_event_samples r1 es1).1 =
      es1.map (fun e => (e.1, extractEventValue r1 e.2)) := by
  subst hr
  subst he
  refine ⟨rfl, ?_⟩
  have hloop : ∀ es acc, extractLoop r1 es acc =
      acc ++ es.map (fun e => (e.1, extractEventValue r1 e.2)) := by
    intro es
    induction es with
    | nil =>
      intro acc
      simp [extractLoop]
    | cons e rest ih =>
      intro acc
      simp only [extractLoop]
      rw [ih]
      simp
  have h0 := hloop es1 []
  simpa [extract_event_samples] using h0

/-- C9 witness: two identical calls on a concrete row and event map give
identical outputs of the mapped shape. -/
theorem C9_witness :
    extract_event_samples ⟨[some 1, some 2], some 0, some 1, some 2⟩
        [("footstrike", some 0)] =
      extract_event_samples ⟨[some 1, some 2], some 0, some 1, some 2⟩
        [("footstrike", some 0)] ∧
    (extract_event_samples ⟨[some 1, some 2], some 0, some 1, some 2⟩
        [("footstrike", some 0)]).1 =
      [("footstrike", some 0)].map (fun e =>
        (e.1, extractEventValue ⟨[some 1, some 2], some 0, some 1, some 2⟩ e.2)) :=
  C9_pure_extraction ⟨[some 1, some 2], some 0, some 1, some 2⟩
    ⟨[some 1, some 2], some 0, some 1, some 2⟩
    [("footstrike", some 0)] [("footstrike", some 0)] rfl rfl
